import Mathlib

/-!
Verification of the homework-status Telegram bot (`homework.py`, `exceptions.py`)
against its natural-language specification.

The Python program is shallowly embedded: Python values appearing in API
responses are modelled by the inductive `PyVal`; each function of
`homework.py` (`check_tokens`, `get_api_answer`, `check_response`,
`parse_status`) becomes a Lean function returning `Except HWError _`,
where `HWError` collects the exception classes of `exceptions.py` together
with the builtin `KeyError` / `TypeError` / `IndexError` raised by the code,
each carrying its formatted message string.  The infinite poll loop of
`main` is modelled by a single-cycle step function `mainCycle` on the loop
state (the `timestamp` cursor and the `previous_error_message` marker),
iterated over a list of per-cycle HTTP outcomes by `mainCycles`; outbound
Telegram messages are collected in a list (`send_message` swallows all
transport errors, so it never raises).
-/

/-- Model of the Python values that can appear in a decoded JSON API
response or as a function argument: dictionaries (association lists with
string keys, first binding wins on lookup, as Python dicts have unique
keys), lists, strings, integers, booleans and `None`.  Numeric JSON values
are modelled as integers. -/
inductive PyVal : Type
  | dict (entries : List (String × PyVal))
  | list (elems : List PyVal)
  | str (s : String)
  | int (n : Int)
  | bool (b : Bool)
  | pyNone
deriving Repr

/-- Python `key in d` for a dict `d`. -/
def dictContains (entries : List (String × PyVal)) (k : String) : Bool :=
  entries.any (fun p => p.1 == k)

/-- Python `d[key]` as an optional lookup (first binding wins; a Python
dict has unique keys so this is exact). -/
def dictGet (entries : List (String × PyVal)) (k : String) : Option PyVal :=
  (entries.find? (fun p => p.1 == k)).map (fun p => p.2)

/-- Python truthiness of a value (used by `if homeworks:` in `main`). -/
def pyTruthy : PyVal → Bool
  | .dict entries => !entries.isEmpty
  | .list elems => !elems.isEmpty
  | .str s => !s.isEmpty
  | .int n => n != 0
  | .bool b => b
  | .pyNone => false

/-- Simplified model of Python `str(v)` used when a value is interpolated
into an f-string.  Exact for strings, integers, booleans and `None`; the
rendering of containers is abstracted (no claim depends on it). -/
def pyStr : PyVal → String
  | .dict _ => "dict"
  | .list _ => "list"
  | .str s => s
  | .int n => toString n
  | .bool b => if b then "True" else "False"
  | .pyNone => "None"

/-- Simplified model of Python `repr(v)` used by `{x=}` f-string debug
interpolations.  Exact for integers, booleans and `None`; strings are
rendered in double quotes and containers abstractly (no claim depends on
the exact rendering). -/
def pyReprS : PyVal → String
  | .dict _ => "dict"
  | .list _ => "list"
  | .str s => "\"" ++ s ++ "\""
  | .int n => toString n
  | .bool b => if b then "True" else "False"
  | .pyNone => "None"

/-- Simplified model of Python `type(v)` rendering (Python prints
a form with the class name; only the class name is kept here — no claim
depends on the exact rendering). -/
def pyTypeName : PyVal → String
  | .dict _ => "dict"
  | .list _ => "list"
  | .str _ => "str"
  | .int _ => "int"
  | .bool _ => "bool"
  | .pyNone => "NoneType"

/-- The exceptions raised by `homework.py`: the classes of `exceptions.py`
that the code actually raises, plus the builtin `KeyError`, `TypeError`
and `IndexError`.  Each carries its formatted message string
(`str(exception)` in Python returns exactly the message it was constructed
with). -/
inductive HWError : Type
  | noEnvVar (msg : String)
  | invalidPracticumToken (msg : String)
  | timestampArgumentType (msg : String)
  | responseArgumentType (msg : String)
  | homeworksFieldType (msg : String)
  | apiUrlResponse (msg : String)
  | unexpectedHomeworkStatus (msg : String)
  | homeworkArgumentType (msg : String)
  | apiResponseJSONDecode (msg : String)
  | apiRequestException (msg : String)
  | keyError (msg : String)
  | typeError (msg : String)
  | indexError (msg : String)
deriving Repr, DecidableEq

/-- Python `str(error)`: the message the exception was constructed with. -/
def HWError.message : HWError → String
  | .noEnvVar m => m
  | .invalidPracticumToken m => m
  | .timestampArgumentType m => m
  | .responseArgumentType m => m
  | .homeworksFieldType m => m
  | .apiUrlResponse m => m
  | .unexpectedHomeworkStatus m => m
  | .homeworkArgumentType m => m
  | .apiResponseJSONDecode m => m
  | .apiRequestException m => m
  | .keyError m => m
  | .typeError m => m
  | .indexError m => m

/-! Module-level constants of `homework.py`. -/

def ENDPOINT : String := "https://practicum.yandex.ru/api/user_api/homework_statuses/"

def HOMEWORKS_KEY : String := "homeworks"

def STATUS_KEY : String := "status"

def HOMEWORK_NAME : String := "homework_name"

def CURRENT_DATE : String := "current_date"

def HOMEWORK_VERDICTS : List (String × String) :=
  [("approved", "Работа проверена: ревьюеру всё понравилось. Ура!"),
   ("reviewing", "Работа взята на проверку ревьюером."),
   ("rejected", "Работа проверена: у ревьюера есть замечания.")]

/-! ## `check_tokens` -/

/-- The aggregated message of `NoEnvVarError` in `check_tokens`:
the missing variable names joined by a comma. -/
def noEnvVarMsg (missingNames : List String) : String :=
  "Отсутствуют обязательные переменные окружения: " ++
    String.intercalate ", " missingNames ++
    "\nПрограмма принудительно остановлена."

/-- `check_tokens` of `homework.py`, parameterized by the three environment
variables (`os.getenv` yields `None` exactly when the variable is unset).
It collects the names of the `None` variables in declaration order and
raises `NoEnvVarError` naming them when any is missing; otherwise it
returns `True`. -/
def check_tokens (practicum_token telegram_token telegram_chat_id : Option String) :
    Except HWError Bool :=
  let env_vars : List (Option String × String) :=
    [(practicum_token, "PRACTICUM_TOKEN"),
     (telegram_token, "TELEGRAM_TOKEN"),
     (telegram_chat_id, "TELEGRAM_CHAT_ID")]
  let missing_vars : List String :=
    (env_vars.filter (fun p => p.1.isNone)).map (fun p => p.2)
  if missing_vars.isEmpty then .ok true
  else .error (.noEnvVar (noEnvVarMsg missing_vars))

/-! ## `get_api_answer` -/

/-- The outcome of the single `requests.get` call in `get_api_answer`:
either the transport layer raised `requests.RequestException`, or a
response arrived with a status code and a body that either decodes to JSON
(`some v`) or does not (`none`). -/
inductive ReqOutcome : Type
  | requestException
  | response (status : Nat) (jsonBody : Option PyVal)
deriving Repr

def API_REQUEST_ERR_MSG : String :=
  "Что-то пошло не так при обращении к " ++ ENDPOINT ++ " в функции get_api_answer"

def INVALID_TOKEN_ERR_MSG : String :=
  "Невалидный токен доступа к Яндекс-Практикум в функции get_api_answer."

def timestampErrMsg (timestamp : PyVal) : String :=
  "Некорректный тип параметра timestamp=" ++ pyReprS timestamp ++
    " в функции get_api_answer"

def API_URL_ERR_MSG : String :=
  "Произошла ошибка с сервисом " ++ ENDPOINT ++ " в функции get_api_answer."

def JSON_DECODE_ERR_MSG : String :=
  "Ошибка преобразования ответа API в json в функции get_api_answer."

/-- `get_api_answer` of `homework.py`, with the HTTP interaction abstracted
into a `ReqOutcome` argument.  Status-code dispatch follows the source:
401/403 (`UNAUTHORIZED`/`FORBIDDEN`) first, then 400 (`BAD_REQUEST`), then
any other non-200, then JSON decoding of a 200 body. -/
def get_api_answer (timestamp : PyVal) (outcome : ReqOutcome) : Except HWError PyVal :=
  match outcome with
  | .requestException => .error (.apiRequestException API_REQUEST_ERR_MSG)
  | .response status jsonBody =>
    if status = 401 ∨ status = 403 then
      .error (.invalidPracticumToken INVALID_TOKEN_ERR_MSG)
    else if status = 400 then
      .error (.timestampArgumentType (timestampErrMsg timestamp))
    else if status ≠ 200 then
      .error (.apiUrlResponse API_URL_ERR_MSG)
    else
      match jsonBody with
      | Option.none => .error (.apiResponseJSONDecode JSON_DECODE_ERR_MSG)
      | some v => .ok v

/-! ## `check_response` -/

def responseTypeErrMsg (response : PyVal) : String :=
  "Некорректный тип параметра response=" ++ pyReprS response ++
    " функции check_response"

def HOMEWORKS_KEY_ERR_MSG : String :=
  "Отсутствует ключ homeworks в ответе API в функции check_response."

def CURRENT_DATE_KEY_ERR_MSG : String :=
  "Отсутствует ключ current_date в ответе API в функции check_response."

/-- Message of `HomeworksFieldTypeError`; the source concatenates the
fragments without a space before the final one, giving the literal
substring containing the missing space. -/
def homeworksFieldTypeErrMsg (homeworks : PyVal) : String :=
  "Тип данных поля homeworks (" ++ pyTypeName homeworks ++ ") " ++
    "не соответствует ожидаемому (list)" ++ "в функции check_response."

/-- `check_response` of `homework.py`: rejects a non-dict argument, then a
missing `homeworks` key, then a missing `current_date` key, then a
non-list `homeworks` field, in that order; returns the argument itself
when all checks pass. -/
def check_response (response : PyVal) : Except HWError PyVal :=
  match response with
  | .dict entries =>
    if !dictContains entries HOMEWORKS_KEY then
      .error (.keyError HOMEWORKS_KEY_ERR_MSG)
    else if !dictContains entries CURRENT_DATE then
      .error (.keyError CURRENT_DATE_KEY_ERR_MSG)
    else
      match dictGet entries HOMEWORKS_KEY with
      | some (.list _) => .ok (.dict entries)
      | some homeworks => .error (.homeworksFieldType (homeworksFieldTypeErrMsg homeworks))
      | Option.none => .error (.keyError HOMEWORKS_KEY_ERR_MSG)
  | _ => .error (.responseArgumentType (responseTypeErrMsg response))

/-! ## `parse_status` -/

def NOTHING_NEW_MSG : String := "На ревью нет новых домашек."

def homeworkTypeErrMsg (homework : PyVal) : String :=
  "Некорректный тип параметра homework=" ++ pyReprS homework ++
    " функции parse_status."

def STATUS_KEY_ERR_MSG : String :=
  "Отсутствуют ключ status в ответе API в функции parse_status."

def UNEXPECTED_STATUS_ERR_MSG : String :=
  "Неожиданный статус домашней работы. в функции parse_status."

/-- Message of the `KeyError` for a missing `homework_name`; the source
concatenates the f-string fragments without a space after `API`. -/
def NAME_KEY_ERR_MSG : String :=
  "Отсутствуют ключ homework_name в ответе API" ++ "в функции parse_status."

/-- Python `homework_status in HOMEWORK_VERDICTS` followed by
`HOMEWORK_VERDICTS[homework_status]`.  Dict membership hashes the probed
value first, so an unhashable status value (a list or a dict) raises the
builtin `TypeError: unhashable type` at the membership test itself
(message quoting abbreviated); a hashable value is then compared with
`==` against the string keys, so a hashable non-string status is simply
not a member (`.ok Option.none`), and a string status is a member exactly
when it is one of the three keys, in which case its verdict text is
returned. -/
def verdictLookup (status : PyVal) : Except HWError (Option String) :=
  match status with
  | .str s => .ok ((HOMEWORK_VERDICTS.find? (fun p => p.1 == s)).map (fun p => p.2))
  | .int _ => .ok Option.none
  | .bool _ => .ok Option.none
  | .pyNone => .ok Option.none
  | .list _ => .error (.typeError "unhashable type: list")
  | .dict _ => .error (.typeError "unhashable type: dict")

/-- The success message of `parse_status`. -/
def statusMessage (nameVal : PyVal) (verdict : String) : String :=
  "Изменился статус проверки работы \"" ++ pyStr nameVal ++ "\". " ++ verdict

/-- `parse_status` of `homework.py`: `None` yields the fixed nothing-new
string; a non-dict raises `HomeworkArgumentTypeError`; a missing `status`
key raises `KeyError`; the membership test of the status against
`HOMEWORK_VERDICTS` raises the builtin `TypeError` on an unhashable
status value and `UnexpectedHomeworkStatusError` on a hashable
non-member; a missing `homework_name` key raises `KeyError`; otherwise
the formatted message is returned.  The Python membership test
`STATUS_KEY not in homework` is expressed through the lookup (`dictGet`
is `none` exactly when the key is absent). -/
def parse_status (homework : PyVal) : Except HWError String :=
  match homework with
  | .pyNone => .ok NOTHING_NEW_MSG
  | .dict entries =>
    match dictGet entries STATUS_KEY with
    | Option.none => .error (.keyError STATUS_KEY_ERR_MSG)
    | some homework_status =>
      match verdictLookup homework_status with
      | .error e => .error e
      | .ok Option.none => .error (.unexpectedHomeworkStatus UNEXPECTED_STATUS_ERR_MSG)
      | .ok (some verdict) =>
        match dictGet entries HOMEWORK_NAME with
        | Option.none => .error (.keyError NAME_KEY_ERR_MSG)
        | some nameVal => .ok (statusMessage nameVal verdict)
  | _ => .error (.homeworkArgumentType (homeworkTypeErrMsg homework))

/-! ## The poll loop of `main` -/

/-- The mutable state of the poll loop in `main`: the `timestamp` cursor
(kept as a `PyVal` because it is reassigned to the raw `current_date`
field of the response, whose type is never checked) and the
`previous_error_message` marker, initialized to `None`. -/
structure LoopState : Type where
  timestamp : PyVal
  previous_error_message : Option String
deriving Repr

/-- Python subscript `v[k]` on the response: `KeyError` when the key is
absent from the dict, `TypeError` when the value is not subscriptable
(messages abbreviated; these branches are unreachable after
`check_response`, and no claim depends on their text). -/
def dictItem (v : PyVal) (k : String) : Except HWError PyVal :=
  match v with
  | .dict entries =>
    match dictGet entries k with
    | some x => .ok x
    | Option.none => .error (.keyError k)
  | _ => .error (.typeError "object is not subscriptable")

/-- Python `homeworks[0]`: `IndexError` on an empty list, `TypeError` on a
non-list (unreachable in `main` because it is guarded by
`if homeworks:` after validation). -/
def pyIndex0 : PyVal → Except HWError PyVal
  | .list (x :: _) => .ok x
  | .list [] => .error (.indexError "list index out of range")
  | v => .error (.typeError (pyTypeName v ++ " object is not subscriptable"))

/-- The body of the `try:` block of one cycle of `main`, from
`get_api_answer` through the `timestamp` reassignment: returns the list of
messages passed to `send_message` during the cycle together with the new
value of `timestamp`, or the first exception raised.  `send_message`
itself catches every `TelegramError`, so it never raises. -/
def cycleBody (outcome : ReqOutcome) (timestamp : PyVal) :
    Except HWError (List String × PyVal) := do
  let api_response ← get_api_answer timestamp outcome
  let checked_response ← check_response api_response
  let homeworks ← dictItem checked_response HOMEWORKS_KEY
  let sends ←
    if pyTruthy homeworks then do
      let hw ← pyIndex0 homeworks
      let message ← parse_status hw
      pure [message]
    else
      pure ([] : List String)
  let newTimestamp ← dictItem checked_response CURRENT_DATE
  pure (sends, newTimestamp)

/-- `f-string` of the `except` handler in `main`. -/
def failureMessage (e : HWError) : String :=
  "Сбой в работе программы: " ++ e.message

/-- One iteration of the `while True:` loop of `main`: run the `try:` body;
on success commit the new `timestamp`; on an exception build the failure
message and, exactly as in the source, send it when it differs from
`previous_error_message` (leaving the marker untouched) and otherwise
assign the marker (sending nothing).  Returns the successor state and the
messages sent during the cycle. -/
def mainCycle (outcome : ReqOutcome) (st : LoopState) : LoopState × List String :=
  match cycleBody outcome st.timestamp with
  | .ok (sends, newTimestamp) =>
    ({ st with timestamp := newTimestamp }, sends)
  | .error error =>
    let message := failureMessage error
    if some message ≠ st.previous_error_message then
      (st, [message])
    else
      ({ st with previous_error_message := some message }, [])

/-- Iterating the loop over a list of per-cycle HTTP outcomes, collecting
all messages sent. -/
def mainCycles (outcomes : List ReqOutcome) (st : LoopState) : LoopState × List String :=
  match outcomes with
  | [] => (st, [])
  | o :: rest =>
    let step := mainCycle o st
    let restRun := mainCycles rest step.1
    (restRun.1, step.2 ++ restRun.2)

/-- The initial loop state of `main`: some starting cursor, marker `None`
(`previous_error_message = None`, line 197 of the source). -/
def initialState (startTs : PyVal) : LoopState :=
  { timestamp := startTs, previous_error_message := Option.none }

/-! ## Helper lemmas -/

/-- `check_response` is pass-through: whenever it succeeds, the returned
value is the argument itself. -/
theorem check_response_ok_eq (v w : PyVal) (h : check_response v = .ok w) : w = v := by
  cases v with
  | dict entries =>
    simp only [check_response] at h
    split at h
    · simp at h
    · split at h
      · simp at h
      · split at h
        · simp_all
        · simp at h
        · simp at h
  | list elems => simp [check_response] at h
  | str s => simp [check_response] at h
  | int n => simp [check_response] at h
  | bool b => simp [check_response] at h
  | pyNone => simp [check_response] at h

/-- One loop cycle never sets the `previous_error_message` marker when it
was `None`: the success branch does not touch it, and on the error branch
the guard `message != previous_error_message` always holds (a string never
equals `None`), so the assignment branch is unreachable. -/
theorem mainCycle_prev_none (o : ReqOutcome) (st : LoopState)
    (h : st.previous_error_message = Option.none) :
    (mainCycle o st).1.previous_error_message = Option.none := by
  unfold mainCycle
  cases hcb : cycleBody o st.timestamp with
  | ok p => obtain ⟨sends, ts⟩ := p; simp [h]
  | error e => simp [h]

/-! ## Claim theorems -/

/-- C3: for every subset of the three required credentials that is unset,
`check_tokens` fails with a single aggregated `NoEnvVarError` whose message
names exactly the missing variable names (in declaration order); when all
three are set it returns `True` without error; there is no partial
success. -/
theorem check_tokens_aggregate_error (p t c : Option String) :
    ((p = Option.none ∨ t = Option.none ∨ c = Option.none) →
      check_tokens p t c =
        .error (.noEnvVar (noEnvVarMsg
          ((if p = Option.none then ["PRACTICUM_TOKEN"] else []) ++
           (if t = Option.none then ["TELEGRAM_TOKEN"] else []) ++
           (if c = Option.none then ["TELEGRAM_CHAT_ID"] else []))))) ∧
    ((p ≠ Option.none ∧ t ≠ Option.none ∧ c ≠ Option.none) →
      check_tokens p t c = .ok true) := by
  constructor
  · intro h
    cases p <;> cases t <;> cases c <;> simp_all [check_tokens]
  · rintro ⟨hp, ht, hc⟩
    cases p <;> cases t <;> cases c <;> simp_all [check_tokens]

/-- Witness for C3 at concrete inputs: with `PRACTICUM_TOKEN` and
`TELEGRAM_CHAT_ID` unset the error names exactly those two variables, and
with all three set the check returns `True`. -/
theorem check_tokens_aggregate_error_concrete :
    check_tokens Option.none (some "t") Option.none =
      .error (.noEnvVar (noEnvVarMsg ["PRACTICUM_TOKEN", "TELEGRAM_CHAT_ID"])) ∧
    check_tokens (some "p") (some "t") (some "c") = .ok true := by
  constructor
  · have h := (check_tokens_aggregate_error Option.none (some "t") Option.none).1
      (Or.inl rfl)
    simpa using h
  · exact (check_tokens_aggregate_error (some "p") (some "t") (some "c")).2
      ⟨by simp, by simp, by simp⟩

/-- C4: for every timestamp, `get_api_answer` maps the request outcome as
specified: transport failure to `APIRequestException`; HTTP 401/403 to
`InvalidPracticumTokenError`; HTTP 400 to `TimestampArgumentTypeError`;
any other non-200 status to `APIUrlResponseError`; a 200 body that does
not decode as JSON to `APIResponseJSONDecodeError`; and a 200 body with
decoded JSON `v` to success with `v`. -/
theorem get_api_answer_outcome_map (timestamp : PyVal) :
    (get_api_answer timestamp .requestException =
      .error (.apiRequestException API_REQUEST_ERR_MSG)) ∧
    (∀ status body, (status = 401 ∨ status = 403) →
      get_api_answer timestamp (.response status body) =
        .error (.invalidPracticumToken INVALID_TOKEN_ERR_MSG)) ∧
    (∀ body, get_api_answer timestamp (.response 400 body) =
      .error (.timestampArgumentType (timestampErrMsg timestamp))) ∧
    (∀ status body, status ≠ 401 → status ≠ 403 → status ≠ 400 → status ≠ 200 →
      get_api_answer timestamp (.response status body) =
        .error (.apiUrlResponse API_URL_ERR_MSG)) ∧
    (get_api_answer timestamp (.response 200 Option.none) =
      .error (.apiResponseJSONDecode JSON_DECODE_ERR_MSG)) ∧
    (∀ v, get_api_answer timestamp (.response 200 (some v)) = .ok v) := by
  refine ⟨rfl, ?_, ?_, ?_, rfl, fun v => rfl⟩
  · rintro status body (rfl | rfl) <;> simp [get_api_answer]
  · intro body; simp [get_api_answer]
  · intro status body h1 h2 h3 h4
    simp [get_api_answer, h1, h2, h3, h4]

/-- Witness for C4 at concrete inputs: a 403 response, a 400 response, a
404 response and a decodable 200 response, at timestamp `900`. -/
theorem get_api_answer_outcome_map_concrete :
    get_api_answer (.int 900) (.response 403 Option.none) =
      .error (.invalidPracticumToken INVALID_TOKEN_ERR_MSG) ∧
    get_api_answer (.int 900) (.response 400 Option.none) =
      .error (.timestampArgumentType (timestampErrMsg (.int 900))) ∧
    get_api_answer (.int 900) (.response 404 Option.none) =
      .error (.apiUrlResponse API_URL_ERR_MSG) ∧
    get_api_answer (.int 900) (.response 200 (some (.dict []))) = .ok (.dict []) := by
  refine ⟨?_, ?_, ?_, ?_⟩
  · exact (get_api_answer_outcome_map (.int 900)).2.1 403 Option.none (Or.inr rfl)
  · exact (get_api_answer_outcome_map (.int 900)).2.2.1 Option.none
  · exact (get_api_answer_outcome_map (.int 900)).2.2.2.1 404 Option.none
      (by decide) (by decide) (by decide) (by decide)
  · exact (get_api_answer_outcome_map (.int 900)).2.2.2.2.2 (.dict [])

/-- C5: `check_response` raises `ResponseArgumentTypeError` on a non-dict
input, a `KeyError` when `homeworks` is absent, a `KeyError` when
`current_date` is absent, and `HomeworksFieldTypeError` when `homeworks`
is present but not a list; on every input passing all checks it returns
the input itself unchanged. -/
theorem check_response_validation :
    (∀ v : PyVal, (∀ entries, v ≠ .dict entries) →
      check_response v = .error (.responseArgumentType (responseTypeErrMsg v))) ∧
    (∀ entries, dictContains entries HOMEWORKS_KEY = false →
      check_response (.dict entries) = .error (.keyError HOMEWORKS_KEY_ERR_MSG)) ∧
    (∀ entries, dictContains entries HOMEWORKS_KEY = true →
      dictContains entries CURRENT_DATE = false →
      check_response (.dict entries) = .error (.keyError CURRENT_DATE_KEY_ERR_MSG)) ∧
    (∀ entries hw, dictContains entries HOMEWORKS_KEY = true →
      dictContains entries CURRENT_DATE = true →
      dictGet entries HOMEWORKS_KEY = some hw →
      (∀ elems, hw ≠ .list elems) →
      check_response (.dict entries) =
        .error (.homeworksFieldType (homeworksFieldTypeErrMsg hw))) ∧
    (∀ entries elems, dictContains entries HOMEWORKS_KEY = true →
      dictContains entries CURRENT_DATE = true →
      dictGet entries HOMEWORKS_KEY = some (.list elems) →
      check_response (.dict entries) = .ok (.dict entries)) := by
  refine ⟨?_, ?_, ?_, ?_, ?_⟩
  · intro v hv
    cases v with
    | dict entries => exact absurd rfl (hv entries)
    | list elems => rfl
    | str s => rfl
    | int n => rfl
    | bool b => rfl
    | pyNone => rfl
  · intro entries h1
    simp [check_response, h1]
  · intro entries h1 h2
    simp [check_response, h1, h2]
  · intro entries hw h1 h2 h3 h4
    cases hw with
    | list elems => exact absurd rfl (h4 elems)
    | dict d => simp [check_response, h1, h2, h3]
    | str s => simp [check_response, h1, h2, h3]
    | int n => simp [check_response, h1, h2, h3]
    | bool b => simp [check_response, h1, h2, h3]
    | pyNone => simp [check_response, h1, h2, h3]
  · intro entries elems h1 h2 h3
    simp [check_response, h1, h2, h3]

/-- Witness for C5 at concrete inputs: a string input, a dict missing
`homeworks`, a dict missing `current_date`, a dict with a non-list
`homeworks`, and a well-formed dict returned unchanged. -/
theorem check_response_validation_concrete :
    check_response (.str "x") =
      .error (.responseArgumentType (responseTypeErrMsg (.str "x"))) ∧
    check_response (.dict [(CURRENT_DATE, .int 1)]) =
      .error (.keyError HOMEWORKS_KEY_ERR_MSG) ∧
    check_response (.dict [(HOMEWORKS_KEY, .list [])]) =
      .error (.keyError CURRENT_DATE_KEY_ERR_MSG) ∧
    check_response (.dict [(HOMEWORKS_KEY, .int 7), (CURRENT_DATE, .int 1)]) =
      .error (.homeworksFieldType (homeworksFieldTypeErrMsg (.int 7))) ∧
    check_response (.dict [(HOMEWORKS_KEY, .list []), (CURRENT_DATE, .int 1)]) =
      .ok (.dict [(HOMEWORKS_KEY, .list []), (CURRENT_DATE, .int 1)]) := by
  refine ⟨?_, ?_, ?_, ?_, ?_⟩
  · exact check_response_validation.1 (.str "x") (fun entries h => by simp at h)
  · exact check_response_validation.2.1 [(CURRENT_DATE, .int 1)] (by decide)
  · exact check_response_validation.2.2.1 [(HOMEWORKS_KEY, .list [])] (by decide) (by decide)
  · exact check_response_validation.2.2.2.1
      [(HOMEWORKS_KEY, .int 7), (CURRENT_DATE, .int 1)] (.int 7)
      (by decide) (by decide) rfl (fun elems h => by simp at h)
  · exact check_response_validation.2.2.2.2
      [(HOMEWORKS_KEY, .list []), (CURRENT_DATE, .int 1)] []
      (by decide) (by decide) rfl

/-- Counterexample to C6 as stated: at the concrete record whose `status`
value is the (unhashable) empty list, `parse_status` raises the builtin
`TypeError` coming from the membership test
`homework_status not in HOMEWORK_VERDICTS` (line 168 of the source) —
not `UnexpectedHomeworkStatusError` as the claim asserts for every
status value outside the verdict set. -/
theorem parse_status_unhashable_counterexample :
    parse_status (.dict [(STATUS_KEY, .list []), (HOMEWORK_NAME, .str "X")]) =
      .error (.typeError "unhashable type: list") ∧
    parse_status (.dict [(STATUS_KEY, .list []), (HOMEWORK_NAME, .str "X")]) ≠
      .error (.unexpectedHomeworkStatus UNEXPECTED_STATUS_ERR_MSG) := by
  refine ⟨rfl, ?_⟩
  intro h
  rw [show parse_status (.dict [(STATUS_KEY, .list []), (HOMEWORK_NAME, .str "X")]) =
      .error (.typeError "unhashable type: list") from rfl] at h
  simp at h

/-- C6 (amended): `parse_status` handles its cases in the source's order:
`None` yields the fixed nothing-new string; a non-dict (other than
`None`) raises `HomeworkArgumentTypeError`; a dict without the `status`
key raises `KeyError`; at the membership test of the status value against
the verdict table, an unhashable status value (a list or a dict) raises
the builtin `TypeError` while a hashable status value outside the
three-entry `HOMEWORK_VERDICTS` table raises
`UnexpectedHomeworkStatusError`, in both cases regardless of whether
`homework_name` is present; a dict with a known status but no
`homework_name` key raises `KeyError`; otherwise it returns the
formatted string built from the homework name and the verdict text. -/
theorem parse_status_cases :
    (parse_status .pyNone = .ok NOTHING_NEW_MSG) ∧
    (∀ v : PyVal, v ≠ .pyNone → (∀ entries, v ≠ .dict entries) →
      parse_status v = .error (.homeworkArgumentType (homeworkTypeErrMsg v))) ∧
    (∀ entries, dictGet entries STATUS_KEY = Option.none →
      parse_status (.dict entries) = .error (.keyError STATUS_KEY_ERR_MSG)) ∧
    (∀ entries s e, dictGet entries STATUS_KEY = some s →
      verdictLookup s = .error e →
      parse_status (.dict entries) = .error e) ∧
    (∀ entries s, dictGet entries STATUS_KEY = some s →
      verdictLookup s = .ok Option.none →
      parse_status (.dict entries) =
        .error (.unexpectedHomeworkStatus UNEXPECTED_STATUS_ERR_MSG)) ∧
    (∀ entries s verdict, dictGet entries STATUS_KEY = some s →
      verdictLookup s = .ok (some verdict) →
      dictGet entries HOMEWORK_NAME = Option.none →
      parse_status (.dict entries) = .error (.keyError NAME_KEY_ERR_MSG)) ∧
    (∀ entries s verdict nameVal, dictGet entries STATUS_KEY = some s →
      verdictLookup s = .ok (some verdict) →
      dictGet entries HOMEWORK_NAME = some nameVal →
      parse_status (.dict entries) = .ok (statusMessage nameVal verdict)) := by
  refine ⟨rfl, ?_, ?_, ?_, ?_, ?_, ?_⟩
  · intro v h0 hd
    cases v with
    | dict entries => exact absurd rfl (hd entries)
    | pyNone => exact absurd rfl h0
    | list elems => rfl
    | str s => rfl
    | int n => rfl
    | bool b => rfl
  · intro entries h1
    simp [parse_status, h1]
  · intro entries s e h1 h2
    simp [parse_status, h1, h2]
  · intro entries s h1 h2
    simp [parse_status, h1, h2]
  · intro entries s verdict h1 h2 h3
    simp [parse_status, h1, h2, h3]
  · intro entries s verdict nameVal h1 h2 h3
    simp [parse_status, h1, h2, h3]

/-- Witness for C6 at concrete inputs: `None`, an integer, a dict with no
`status`, a dict with the unhashable status `[]` (raising the builtin
`TypeError`), a dict with the unknown hashable status `"unknown"` (and a
name), a dict with status `"approved"` but no `homework_name`, and a
well-formed record. -/
theorem parse_status_cases_concrete :
    parse_status .pyNone = .ok NOTHING_NEW_MSG ∧
    parse_status (.int 3) = .error (.homeworkArgumentType (homeworkTypeErrMsg (.int 3))) ∧
    parse_status (.dict [(HOMEWORK_NAME, .str "X")]) =
      .error (.keyError STATUS_KEY_ERR_MSG) ∧
    parse_status (.dict [(STATUS_KEY, .list []), (HOMEWORK_NAME, .str "X")]) =
      .error (.typeError "unhashable type: list") ∧
    parse_status (.dict [(STATUS_KEY, .str "unknown"), (HOMEWORK_NAME, .str "X")]) =
      .error (.unexpectedHomeworkStatus UNEXPECTED_STATUS_ERR_MSG) ∧
    parse_status (.dict [(STATUS_KEY, .str "approved")]) =
      .error (.keyError NAME_KEY_ERR_MSG) ∧
    parse_status (.dict [(STATUS_KEY, .str "approved"), (HOMEWORK_NAME, .str "X")]) =
      .ok (statusMessage (.str "X")
        "Работа проверена: ревьюеру всё понравилось. Ура!") := by
  refine ⟨parse_status_cases.1, ?_, ?_, ?_, ?_, ?_, ?_⟩
  · exact parse_status_cases.2.1 (.int 3) (by simp) (fun entries h => by simp at h)
  · exact parse_status_cases.2.2.1 [(HOMEWORK_NAME, .str "X")] rfl
  · exact parse_status_cases.2.2.2.1
      [(STATUS_KEY, .list []), (HOMEWORK_NAME, .str "X")] (.list [])
      (.typeError "unhashable type: list") rfl rfl
  · exact parse_status_cases.2.2.2.2.1
      [(STATUS_KEY, .str "unknown"), (HOMEWORK_NAME, .str "X")] (.str "unknown") rfl rfl
  · exact parse_status_cases.2.2.2.2.2.1 [(STATUS_KEY, .str "approved")] (.str "approved")
      "Работа проверена: ревьюеру всё понравилось. Ура!" rfl rfl rfl
  · exact parse_status_cases.2.2.2.2.2.2
      [(STATUS_KEY, .str "approved"), (HOMEWORK_NAME, .str "X")] (.str "approved")
      "Работа проверена: ревьюеру всё понравилось. Ура!" (.str "X") rfl rfl rfl

/-- C8: `parse_status` is deterministic: on any well-formed homework
record (a dict with a status in the verdict table and a homework name) it
succeeds with a definite formatted string, and two applications to the
same record yield the identical output. -/
theorem parse_status_deterministic (entries : List (String × PyVal))
    (s verdict : String) (nameVal : PyVal)
    (hs : dictGet entries STATUS_KEY = some (.str s))
    (hv : verdictLookup (.str s) = .ok (some verdict))
    (hn : dictGet entries HOMEWORK_NAME = some nameVal) :
    parse_status (.dict entries) = .ok (statusMessage nameVal verdict) ∧
    parse_status (.dict entries) = parse_status (.dict entries) := by
  constructor
  · simp [parse_status, hs, hv, hn]
  · rfl

/-- Witness for C8 at the well-formed record with status `"reviewing"`
and name `"hw"`. -/
theorem parse_status_deterministic_concrete :
    parse_status (.dict [(STATUS_KEY, .str "reviewing"), (HOMEWORK_NAME, .str "hw")]) =
      .ok (statusMessage (.str "hw") "Работа взята на проверку ревьюером.") ∧
    parse_status (.dict [(STATUS_KEY, .str "reviewing"), (HOMEWORK_NAME, .str "hw")]) =
      parse_status (.dict [(STATUS_KEY, .str "reviewing"), (HOMEWORK_NAME, .str "hw")]) :=
  parse_status_deterministic [(STATUS_KEY, .str "reviewing"), (HOMEWORK_NAME, .str "hw")]
    "reviewing" "Работа взята на проверку ревьюером." (.str "hw") rfl rfl rfl

/-- C7: in every successful cycle whose validated response has a non-empty
`homeworks` list, exactly one message is sent, formatted by `parse_status`
from `homeworks[0]` only, and the cursor is then set to the response's
`current_date` value (the marker is untouched). -/
theorem main_success_cycle (o : ReqOutcome) (st : LoopState) (r hw0 : PyVal)
    (rest : List PyVal) (m : String) (cd : PyVal)
    (hget : get_api_answer st.timestamp o = .ok r)
    (hcheck : check_response r = .ok r)
    (hhw : dictItem r HOMEWORKS_KEY = .ok (.list (hw0 :: rest)))
    (hps : parse_status hw0 = .ok m)
    (hcd : dictItem r CURRENT_DATE = .ok cd) :
    mainCycle o st = ({ st with timestamp := cd }, [m]) := by
  have hbody : cycleBody o st.timestamp = .ok ([m], cd) := by
    simp [cycleBody, bind, Except.bind, pure, Except.pure, Functor.map, Except.map,
      hget, hcheck, hhw, hps, hcd, pyTruthy, pyIndex0]
  simp [mainCycle, hbody]

/-- Witness for C7 at the spec's end-to-end example: the response
`homeworks = [record rejected/hw1]`, `current_date = 1000` at cursor 900
produces the single message naming `hw1` with the rejection verdict text
and advances the cursor to 1000. -/
theorem main_success_cycle_concrete :
    mainCycle
      (.response 200 (some (.dict
        [(HOMEWORKS_KEY, .list [.dict [(STATUS_KEY, .str "rejected"),
                                       (HOMEWORK_NAME, .str "hw1")]]),
         (CURRENT_DATE, .int 1000)])))
      { timestamp := .int 900, previous_error_message := Option.none } =
    ({ timestamp := .int 1000, previous_error_message := Option.none },
     ["Изменился статус проверки работы \"hw1\". Работа проверена: у ревьюера есть замечания."]) :=
  main_success_cycle
    (.response 200 (some (.dict
      [(HOMEWORKS_KEY, .list [.dict [(STATUS_KEY, .str "rejected"),
                                     (HOMEWORK_NAME, .str "hw1")]]),
       (CURRENT_DATE, .int 1000)])))
    { timestamp := .int 900, previous_error_message := Option.none }
    (.dict [(HOMEWORKS_KEY, .list [.dict [(STATUS_KEY, .str "rejected"),
                                          (HOMEWORK_NAME, .str "hw1")]]),
            (CURRENT_DATE, .int 1000)])
    (.dict [(STATUS_KEY, .str "rejected"), (HOMEWORK_NAME, .str "hw1")])
    [] "Изменился статус проверки работы \"hw1\". Работа проверена: у ревьюера есть замечания."
    (.int 1000) rfl rfl rfl rfl rfl

/-- When a cycle body succeeds, its committed timestamp is exactly the
`current_date` field of the (validated, hence unchanged) response returned
by `get_api_answer`. -/
theorem cycleBody_ok_current_date (o : ReqOutcome) (ts r : PyVal)
    (sends : List String) (newTs : PyVal)
    (hget : get_api_answer ts o = .ok r)
    (hbody : cycleBody o ts = .ok (sends, newTs)) :
    dictItem r CURRENT_DATE = .ok newTs := by
  simp only [cycleBody, bind, Except.bind, hget] at hbody
  cases hc : check_response r with
  | error e => simp only [hc] at hbody; simp at hbody
  | ok w =>
    rw [check_response_ok_eq r w hc] at hc
    simp only [hc] at hbody
    cases hhw : dictItem r HOMEWORKS_KEY with
    | error e => simp only [hhw] at hbody; simp at hbody
    | ok hwv =>
      simp only [hhw] at hbody
      split at hbody
      · cases hi : pyIndex0 hwv with
        | error e => simp only [hi] at hbody; simp at hbody
        | ok hw0 =>
          simp only [hi] at hbody
          cases hp : parse_status hw0 with
          | error e => simp only [hp] at hbody; simp at hbody
          | ok m =>
            simp only [hp] at hbody
            cases hcd : dictItem r CURRENT_DATE with
            | error e =>
              simp only [hcd] at hbody
              simp [pure, Except.pure] at hbody
            | ok cd =>
              simp only [hcd] at hbody
              simp [pure, Except.pure] at hbody
              simp_all
      · cases hcd : dictItem r CURRENT_DATE with
        | error e =>
          simp only [hcd] at hbody
          simp [pure, Except.pure] at hbody
        | ok cd =>
          simp only [hcd] at hbody
          simp [pure, Except.pure] at hbody
          simp_all

/-- C10: error atomicity of the cursor.  If any step of the cycle body
(fetch, validate, format) raises, the cycle leaves `timestamp` exactly as
it was; when the body succeeds the cursor is set to the committed value,
which is precisely the `current_date` field of the validated response
(the notifier cannot raise: `send_message` swallows `TelegramError`). -/
theorem timestamp_error_atomicity :
    (∀ o st e, cycleBody o st.timestamp = .error e →
      (mainCycle o st).1.timestamp = st.timestamp) ∧
    (∀ o st sends newTs, cycleBody o st.timestamp = .ok (sends, newTs) →
      (mainCycle o st).1.timestamp = newTs) ∧
    (∀ o ts r sends newTs, get_api_answer ts o = .ok r →
      cycleBody o ts = .ok (sends, newTs) →
      dictItem r CURRENT_DATE = .ok newTs) := by
  refine ⟨?_, ?_, ?_⟩
  · intro o st e h
    simp only [mainCycle, h]
    split <;> rfl
  · intro o st sends newTs h
    simp [mainCycle, h]
  · intro o ts r sends newTs hget hbody
    exact cycleBody_ok_current_date o ts r sends newTs hget hbody

/-- Witness for C10: a failing cycle (transport failure) at cursor 900
keeps the cursor at 900, and the successful example cycle commits the
cursor to the response's `current_date` value 1000. -/
theorem timestamp_error_atomicity_concrete :
    (mainCycle .requestException
      { timestamp := .int 900, previous_error_message := Option.none }).1.timestamp =
      PyVal.int 900 ∧
    (mainCycle (.response 200 (some (.dict [(HOMEWORKS_KEY, .list []),
        (CURRENT_DATE, .int 1000)])))
      { timestamp := .int 900, previous_error_message := Option.none }).1.timestamp =
      PyVal.int 1000 ∧
    dictItem (.dict [(HOMEWORKS_KEY, .list []), (CURRENT_DATE, .int 1000)])
      CURRENT_DATE = .ok (.int 1000) := by
  refine ⟨?_, ?_, ?_⟩
  · exact timestamp_error_atomicity.1 .requestException
      { timestamp := .int 900, previous_error_message := Option.none }
      (.apiRequestException API_REQUEST_ERR_MSG) rfl
  · exact timestamp_error_atomicity.2.1
      (.response 200 (some (.dict [(HOMEWORKS_KEY, .list []), (CURRENT_DATE, .int 1000)])))
      { timestamp := .int 900, previous_error_message := Option.none }
      [] (.int 1000) rfl
  · exact timestamp_error_atomicity.2.2
      (.response 200 (some (.dict [(HOMEWORKS_KEY, .list []), (CURRENT_DATE, .int 1000)])))
      (.int 900)
      (.dict [(HOMEWORKS_KEY, .list []), (CURRENT_DATE, .int 1000)])
      [] (.int 1000) rfl rfl

/-- C2: in the error handler of `main`, the `previous_error_message`
marker is assigned only on the branch where the new failure message equals
the stored marker; on the branch where it differs (which sends the
notification) the marker is left unchanged.  Consequently two consecutive
cycles of a run (where the marker is `None`, its initial value) raising
distinct error messages both send their messages. -/
theorem error_marker_frame :
    (∀ o st e, cycleBody o st.timestamp = .error e →
      some (failureMessage e) ≠ st.previous_error_message →
      (mainCycle o st).1.previous_error_message = st.previous_error_message ∧
      (mainCycle o st).2 = [failureMessage e]) ∧
    (∀ o st e, cycleBody o st.timestamp = .error e →
      some (failureMessage e) = st.previous_error_message →
      (mainCycle o st).1.previous_error_message = some (failureMessage e) ∧
      (mainCycle o st).2 = []) ∧
    (∀ o1 o2 st e1 e2, st.previous_error_message = Option.none →
      cycleBody o1 st.timestamp = .error e1 →
      cycleBody o2 st.timestamp = .error e2 →
      failureMessage e1 ≠ failureMessage e2 →
      (mainCycles [o1, o2] st).2 = [failureMessage e1, failureMessage e2]) := by
  refine ⟨?_, ?_, ?_⟩
  · intro o st e h hne
    constructor <;> simp [mainCycle, h, hne]
  · intro o st e h heq
    constructor <;> simp [mainCycle, h, ← heq]
  · intro o1 o2 st e1 e2 hprev h1 h2 _hne
    have s1 : mainCycle o1 st = (st, [failureMessage e1]) := by
      simp [mainCycle, h1, hprev]
    have s2 : mainCycle o2 st = (st, [failureMessage e2]) := by
      simp [mainCycle, h2, hprev]
    simp [mainCycles, s1, s2]

/-- Witness for C2: from the initial marker, a transport-failure cycle
sends its message and leaves the marker untouched, and a
transport-failure cycle followed by a 401 cycle (two distinct messages)
sends both messages. -/
theorem error_marker_frame_concrete :
    (mainCycle .requestException
        (initialState (.int 900))).1.previous_error_message = Option.none ∧
    (mainCycle .requestException (initialState (.int 900))).2 =
      [failureMessage (.apiRequestException API_REQUEST_ERR_MSG)] ∧
    (mainCycles [.requestException, .response 401 Option.none]
        (initialState (.int 900))).2 =
      [failureMessage (.apiRequestException API_REQUEST_ERR_MSG),
       failureMessage (.invalidPracticumToken INVALID_TOKEN_ERR_MSG)] := by
  have h1 := error_marker_frame.1 .requestException (initialState (.int 900))
    (.apiRequestException API_REQUEST_ERR_MSG) rfl (by simp [initialState])
  have h2 := error_marker_frame.2.2 .requestException (.response 401 Option.none)
    (initialState (.int 900))
    (.apiRequestException API_REQUEST_ERR_MSG)
    (.invalidPracticumToken INVALID_TOKEN_ERR_MSG)
    rfl rfl rfl (by decide)
  exact ⟨by rw [h1.1]; rfl, h1.2, h2⟩

/-- C9 (implicit): in every reachable state of the poll loop the
`previous_error_message` marker is still `None` — the only assignment to
it is guarded by the new message being equal to the marker, and a string
never equals `None`, so starting from the initial `None` the guard never
holds; consequently every error cycle of a run satisfies the notify
condition and sends its failure message. -/
theorem previous_error_marker_invariant :
    (∀ outcomes st, st.previous_error_message = Option.none →
      (mainCycles outcomes st).1.previous_error_message = Option.none) ∧
    (∀ o st e, st.previous_error_message = Option.none →
      cycleBody o st.timestamp = .error e →
      (mainCycle o st).2 = [failureMessage e]) := by
  constructor
  · intro outcomes
    induction outcomes with
    | nil => intro st h; simpa [mainCycles] using h
    | cons o rest ih =>
      intro st h
      simp only [mainCycles]
      exact ih _ (mainCycle_prev_none o st h)
  · intro o st e hprev hbody
    simp [mainCycle, hbody, hprev]

/-- Witness for C9: after three consecutive failing cycles the marker is
still `None`, and a failing cycle from the initial state sends its
message. -/
theorem previous_error_marker_invariant_concrete :
    (mainCycles [.requestException, .response 500 Option.none, .requestException]
        (initialState (.int 900))).1.previous_error_message = Option.none ∧
    (mainCycle .requestException (initialState (.int 900))).2 =
      [failureMessage (.apiRequestException API_REQUEST_ERR_MSG)] := by
  constructor
  · exact previous_error_marker_invariant.1
      [.requestException, .response 500 Option.none, .requestException]
      (initialState (.int 900)) rfl
  · exact previous_error_marker_invariant.2 .requestException
      (initialState (.int 900)) (.apiRequestException API_REQUEST_ERR_MSG) rfl rfl

/-- C1 evaluated on the code: two consecutive cycles that each raise a
transport failure produce the *identical* formatted error message, yet the
notifier is invoked in BOTH cycles — the marker is still `None` after the
two cycles, so identical repeated failures are renotified every cycle,
contradicting the claimed once-only notification (the spec itself flags
the marker-update branch as a defect). -/
theorem repeated_identical_error_notified_twice :
    (mainCycles [.requestException, .requestException] (initialState (.int 900))).2 =
      [failureMessage (.apiRequestException API_REQUEST_ERR_MSG),
       failureMessage (.apiRequestException API_REQUEST_ERR_MSG)] ∧
    (mainCycles [.requestException, .requestException]
        (initialState (.int 900))).1.previous_error_message = Option.none := by
  constructor <;> rfl
